import Mathlib

/-!
Verification of the pronunciation-scoring and answer-validation core of the
BDGBingrejibondho language-learning application.

The definitions in the first part of this file are a shallow embedding of the
functions in `src/components/LessonRunner.tsx`:

* `levenshtein`        — the dynamic-programming edit-distance implementation
                          (lines 18–39), embedded row by row: the JS code fills
                          a matrix where row `i` is computed from row `i-1`;
                          `rowStep`/`nextRow` build exactly those rows and
                          `levenshtein` returns `matrix[b.length][a.length]`.
* `calculateSimilarity` — lines 41–46.
* `normalize`           — the normalization closure used at lines 52 and 227
                          (lowercase, strip the punctuation class, trim).
* `getPronunciationFeedback` — lines 49–86.
* `handleCheck`         — the answer-checking logic at lines 217–273, as a pure
                          function of the state it reads (current question,
                          selected option, spoken transcript, built word tile
                          indices, sensitivity), returning `none` where the
                          handler returns early without producing a verdict.

`editDistance` is the character-level Levenshtein edit distance in its
textbook recursive form (unit-cost insertion, deletion and substitution),
stated from the specification's words; the theorem
`levenshtein_eq_editDistance` proves the implementation computes it.
-/

namespace LessonRunner

/-- Character-level Levenshtein edit distance with unit-cost insertion,
deletion and substitution, in its textbook recursive form.  This definition
follows the specification's words ("classic dynamic-programming edit distance
(Levenshtein) between `a` and `b` at the character level, counting
single-character insertion, deletion, and substitution as unit cost each")
and serves as the reference against which the matrix implementation below is
verified. -/
def editDistance : List Char → List Char → Nat
  | [], ys => ys.length
  | xs, [] => xs.length
  | x :: xs, y :: ys =>
      if x = y then editDistance xs ys
      else 1 + min (editDistance xs ys)
        (min (editDistance (x :: xs) ys) (editDistance xs (y :: ys)))
termination_by xs ys => xs.length + ys.length
decreasing_by
  all_goals simp [List.length_cons]
  all_goals omega

/-- One inner loop pass of the JS `levenshtein` matrix fill (lines 26–36):
walking the remaining columns `cs` of string `a`, with `left` the entry just
written in the current row (`matrix[i][j-1]`), and `diag :: rest` the segment
of the previous row starting at `matrix[i-1][j-1]`; `rest.headD 0` is
`matrix[i-1][j]`.  `bc` is `b.charAt(i-1)`. -/
def rowStep (bc : Char) : List Char → Nat → List Nat → List Nat
  | [], _, _ => []
  | _ :: _, _, [] => []
  | c :: cs, left, diag :: rest =>
      let cur := if bc = c then diag
        else min (diag + 1) (min (left + 1) (rest.headD 0 + 1))
      cur :: rowStep bc cs cur rest

/-- Row `i` of the JS matrix computed from row `i-1` (`prev`): the row starts
with `matrix[i][0] = i = prev[0] + 1` and continues with `rowStep`. -/
def nextRow (bc : Char) (a : List Char) (prev : List Nat) : List Nat :=
  match prev with
  | [] => []
  | d :: _ => (d + 1) :: rowStep bc a (d + 1) prev

/-- `levenshtein` from LessonRunner.tsx lines 18–39: row 0 of the matrix is
`[0, 1, ..., a.length]`; each character of `b` produces the next row; the
result is `matrix[b.length][a.length]`. -/
def levenshtein (a b : String) : Nat :=
  (b.data.foldl (fun row bc => nextRow bc a.data row)
    (List.range (a.data.length + 1))).getD a.data.length 0

/-- `calculateSimilarity` from LessonRunner.tsx lines 41–46. -/
def calculateSimilarity (str1 str2 : String) : ℚ :=
  let len := max str1.length str2.length
  if len = 0 then 100
  else ((len : ℚ) - (levenshtein str1 str2 : ℚ)) / (len : ℚ) * 100

/-- Ghost row used to verify the matrix fill: after the prefix `p` of `b` has
been processed, the JS row holds, at the column reached after `pre`, the edit
distance between `pre` and `p`, followed by the entries for the remaining
columns `suf` of `a` (each extending `pre` by one more character). -/
def segRow (p pre : List Char) : List Char → List Nat
  | [] => [editDistance pre p]
  | c :: cs => editDistance pre p :: segRow p (pre ++ [c]) cs

-- ------------------------------------------------------------------
-- Normalization and feedback (LessonRunner.tsx lines 49–86, 227–229)
-- ------------------------------------------------------------------

/-- Code points of the characters stripped by the normalization regex
`[.,\/#!$%\^&\*;:{}=\-_`~()]` (in source order: `.` `,` `/` `#` `!` `$` `%`
`^` `&` `*` `;` `:` `{` `}` `=` `-` `_` `` ` `` `~` `(` `)`). -/
def punctCodes : List Nat :=
  [46, 44, 47, 35, 33, 36, 37, 94, 38, 42, 59, 58, 123, 125, 61, 45, 95, 96, 126, 40, 41]

def isPunct (c : Char) : Bool := punctCodes.contains c.toNat

def isWs (c : Char) : Bool := c.isWhitespace

/-- Trim whitespace from both ends, the JS `String.prototype.trim`. -/
def trimChars (l : List Char) : List Char :=
  ((l.dropWhile isWs).reverse.dropWhile isWs).reverse

/-- The normalization closure defined identically at lines 52 and 227:
`s.toLowerCase().replace(punctuationRegex, "").trim()`. -/
def normalize (s : String) : String :=
  String.mk (trimChars ((s.data.map Char.toLower).filter (fun c => !isPunct c)))

/-- A single apostrophe, as spliced around words in the feedback templates. -/
def apos : String := String.mk [Char.ofNat 39]

def nothingHeardMsg : String :=
  "কিছু শোনা যায়নি। অনুগ্রহ করে আবার চেষ্টা করুন। (Nothing heard. Please try again.)"

def perfectMsg : String := "চমৎকার উচ্চারণ! (Perfect pronunciation!)"

def notClearMsg (w : String) : String :=
  "আপনি " ++ apos ++ w ++ apos ++ " শব্দটি স্পষ্ট করে বলেননি। (" ++ apos ++ w ++ apos
    ++ " was not clear.)"

def lengthMismatchMsg : String :=
  "বাক্যটির দৈর্ঘ্য সঠিক মনে হচ্ছে না। আবার চেষ্টা করুন। (Sentence length doesn" ++ apos
    ++ "t match.)"

def slightlyOffMsg (w : String) : String :=
  apos ++ w ++ apos ++ " শব্দটির উচ্চারণ একটু ভুল ছিল। আবার চেষ্টা করুন। (Pronunciation of "
    ++ apos ++ w ++ apos ++ " was slightly off.)"

def insteadMsg (tw sw : String) : String :=
  "মনে হচ্ছে আপনি " ++ apos ++ tw ++ apos ++ " এর বদলে " ++ apos ++ sw ++ apos
    ++ " বলেছেন। (You said " ++ apos ++ sw ++ apos ++ " instead of " ++ apos ++ tw ++ apos ++ ")"

def moreClearlyMsg : String := "উচ্চারণটি আরও স্পষ্ট করার চেষ্টা করুন। (Try to pronounce more clearly.)"

/-- JS truthiness of an optional string: `null`/absent and `""` are falsy. -/
def jsFalsy : Option String → Bool
  | none => true
  | some s => decide (s = "")

/-- Maximal non-whitespace runs of a character list (`acc` holds the current
run, reversed). -/
def wordsAux : List Char → List Char → List String
  | [], acc => if acc = [] then [] else [String.mk acc.reverse]
  | c :: cs, acc =>
      if isWs c then
        (if acc = [] then wordsAux cs [] else String.mk acc.reverse :: wordsAux cs [])
      else wordsAux cs (c :: acc)

/-- JS `s.split(/\s+/)` as applied by the feedback code, whose arguments are
always trimmed: the empty string yields `[""]` (a JS split never yields an
empty array), and a non-empty trimmed string yields its whitespace-separated
words. -/
def splitWs (s : String) : List String :=
  if s = "" then [""] else wordsAux s.data []

/-- The first index, scanning the shorter of the two word lists, whose words
differ (the loop at lines 73–83), together with the two differing words. -/
def firstMismatch : List String → List String → Option (String × String)
  | t :: ts, s :: ss => if t = s then firstMismatch ts ss else some (t, s)
  | _, _ => none

/-- Rules (2)–(4) of the diagnostic feedback cascade, stated from the spec's
words with the reference `editDistance`: a generic length-mismatch message
when the word counts differ by more than 2, else at the first differing
position a slightly-off message when the two words are within edit distance
2 and a you-said-instead message otherwise, else the generic message. -/
def lengthAndWordFeedback (tw sw : List String) : String :=
  if ((tw.length : Int) - (sw.length : Int)).natAbs > 2 then lengthMismatchMsg
  else
    match firstMismatch tw sw with
    | some p =>
        if editDistance p.1.data p.2.data ≤ 2 then slightlyOffMsg p.1 else insteadMsg p.1 p.2
    | none => moreClearlyMsg

/-- `getPronunciationFeedback` from LessonRunner.tsx lines 49–86. -/
def getPronunciationFeedback (targetText : String) (spokenText : Option String) : String :=
  if jsFalsy spokenText then nothingHeardMsg
  else
    let target := normalize targetText
    let spoken := normalize (spokenText.getD "")
    if target = spoken then perfectMsg
    else
      let targetWords := splitWs target
      let spokenWords := splitWs spoken
      -- `const missing = targetWords.find(...); if (missing) { return ... }`:
      -- `if (missing)` is a JS truthiness test, false both when no word is
      -- missing (`undefined`) and when the found word is the empty string
      -- (which happens exactly when the whole normalized target is empty,
      -- since `"".split(/\s+/)` is `[""]`).
      let missing := targetWords.find? (fun w => !spokenWords.contains w)
      if !jsFalsy missing then notClearMsg (missing.getD "")
      else
        if ((targetWords.length : Int) - (spokenWords.length : Int)).natAbs > 2 then
          lengthMismatchMsg
        else
          match firstMismatch targetWords spokenWords with
          | some p =>
              if levenshtein p.1 p.2 ≤ 2 then slightlyOffMsg p.1 else insteadMsg p.1 p.2
          | none => moreClearlyMsg

-- ------------------------------------------------------------------
-- Questions, attempts and the check handler (lines 88, 217–273, 711–716)
-- ------------------------------------------------------------------

/-- The five question kinds (enum `QuestionType` of `types.ts`, whose member
names appear in `services/geminiService.ts` and LessonRunner.tsx). -/
inductive QuestionType where
  | TranslateToEnglish
  | TranslateToBengali
  | FillBlank
  | Pronunciation
  | WordBuilder
deriving DecidableEq

/-- The fields of a lesson question read by `handleCheck` and the result
footer. -/
structure Question where
  type : QuestionType
  correctAnswer : String
  options : List String
  explanation : String
deriving DecidableEq

/-- `type Sensitivity = 'Easy' | 'Medium' | 'Hard'` (line 88); the spec calls
these Lenient, Standard and Strict. -/
inductive Sensitivity where
  | Easy
  | Medium
  | Hard
deriving DecidableEq

/-- The threshold selection at lines 234–236: `let threshold = 80; if Easy
then 50; if Hard then 95`. -/
def threshold : Sensitivity → ℚ
  | Sensitivity.Easy => 50
  | Sensitivity.Medium => 80
  | Sensitivity.Hard => 95

/-- JS `hay.includes(needle)`: substring containment. -/
def includes (hay needle : String) : Bool :=
  hay.data.tails.any (fun t => needle.data.isPrefixOf t)

/-- The component state read by `handleCheck` for the current question. -/
structure CheckInput where
  question : Question
  selectedOption : Option String
  spokenText : Option String
  builtWordIndices : List Nat
  sensitivity : Sensitivity
deriving DecidableEq

/-- The observable outcome of one `handleCheck` run: the correctness status it
sets and the feedback string it stores (`null` for non-pronunciation kinds). -/
structure CheckResult where
  isCorrect : Bool
  feedback : Option String
deriving DecidableEq

/-- `handleCheck` from LessonRunner.tsx lines 217–273 as a pure function:
`none` models the early `return` paths that produce no verdict (status stays
`idle`), `some r` models setting status to correct/incorrect plus the stored
feedback. -/
def handleCheck (inp : CheckInput) : Option CheckResult :=
  let q := inp.question
  match q.type with
  | QuestionType.Pronunciation =>
      if jsFalsy inp.spokenText && jsFalsy inp.selectedOption then none
      else
        let target := normalize q.correctAnswer
        let input := normalize (inp.spokenText.getD "")
        let similarity := calculateSimilarity target input
        let simpleMatch := decide (input = target) ||
          (decide (inp.sensitivity = Sensitivity.Easy) &&
            (includes input target || includes target input))
        let isCorrect := simpleMatch || decide (similarity ≥ threshold inp.sensitivity)
        some ⟨isCorrect, some (getPronunciationFeedback q.correctAnswer inp.spokenText)⟩
  | QuestionType.WordBuilder =>
      -- `options.getD i ""` models `currentQ.options[i]` for the in-contract
      -- indices the tile UI can produce (out-of-range indices are a caller
      -- contract violation, per the spec's failure semantics).
      let formedWord := String.join (inp.builtWordIndices.map (fun i => q.options.getD i ""))
      some ⟨decide (formedWord = q.correctAnswer), none⟩
  | _ =>
      match inp.selectedOption with
      | none => none
      | some s => if s = "" then none else some ⟨decide (s = q.correctAnswer), none⟩

/-- What the result footer renders (lines 711–716): the dynamically generated
feedback for Pronunciation questions, the question's explanation otherwise. -/
def displayedFeedback (q : Question) (feedback : Option String) : Option String :=
  match q.type with
  | QuestionType.Pronunciation => feedback
  | _ => some q.explanation

-- ------------------------------------------------------------------
-- Basic facts about `editDistance`
-- ------------------------------------------------------------------

theorem editDistance_nil_left (ys : List Char) : editDistance [] ys = ys.length := by
  simp [editDistance]

theorem editDistance_nil_right (xs : List Char) : editDistance xs [] = xs.length := by
  cases xs <;> simp [editDistance]

theorem editDistance_cons_cons (u v : Char) (us vs : List Char) :
    editDistance (u :: us) (v :: vs) =
      if u = v then editDistance us vs
      else 1 + min (editDistance us vs)
        (min (editDistance (u :: us) vs) (editDistance us (v :: vs))) := by
  rw [editDistance]

/-- Transposition identity for the nested minima that appear when the edit
distance is peeled from both ends at once. -/
theorem min_transpose (a1 a2 a3 b1 b2 b3 c1 c2 c3 : Nat) :
    1 + min (1 + min a1 (min a2 a3))
      (min (1 + min b1 (min b2 b3)) (1 + min c1 (min c2 c3))) =
    1 + min (1 + min a1 (min b1 c1))
      (min (1 + min a2 (min b2 c2)) (1 + min a3 (min b3 c3))) := by
  simp only [Nat.one_add, Nat.succ_min_succ]
  exact congrArg Nat.succ (congrArg Nat.succ (by ac_rfl))

set_option maxHeartbeats 1600000 in
/-- The edit distance also satisfies the "last characters" recurrence: this is
the recurrence the JS matrix fill uses (it compares `a.charAt(j-1)` and
`b.charAt(i-1)`, the last characters of the prefixes the cell describes). -/
theorem editDistance_concat (x y : Char) (xs ys : List Char) :
    editDistance (xs ++ [x]) (ys ++ [y]) =
      if x = y then editDistance xs ys
      else 1 + min (editDistance xs ys)
        (min (editDistance (xs ++ [x]) ys) (editDistance xs (ys ++ [y]))) := by
  suffices H : ∀ n (xs ys : List Char), xs.length + ys.length ≤ n →
      editDistance (xs ++ [x]) (ys ++ [y]) =
        if x = y then editDistance xs ys
        else 1 + min (editDistance xs ys)
          (min (editDistance (xs ++ [x]) ys) (editDistance xs (ys ++ [y]))) from
    H (xs.length + ys.length) xs ys le_rfl
  intro n
  induction n with
  | zero =>
    intro xs ys h
    have hx : xs = [] := by cases xs <;> simp_all
    have hy : ys = [] := by cases ys <;> simp_all
    subst hx; subst hy
    simp only [List.nil_append]
    rw [editDistance_cons_cons]
  | succ n ih =>
    intro xs ys h
    cases xs with
    | nil =>
      cases ys with
      | nil =>
        simp only [List.nil_append]
        rw [editDistance_cons_cons]
      | cons v vs =>
        have ih1 := ih [] vs (by simp only [List.length_cons, List.length_nil] at h ⊢; omega)
        simp only [List.nil_append, List.cons_append] at ih1 ⊢
        simp only [editDistance_cons_cons, editDistance_nil_left, List.length_append,
          List.length_cons, List.length_nil] at ih1 ⊢
        rw [ih1]
        split_ifs <;> omega
    | cons u us =>
      cases ys with
      | nil =>
        have ih3 := ih us [] (by simp only [List.length_cons, List.length_nil] at h ⊢; omega)
        simp only [List.nil_append, List.cons_append] at ih3 ⊢
        simp only [editDistance_cons_cons, editDistance_nil_right, List.length_append,
          List.length_cons, List.length_nil] at ih3 ⊢
        rw [ih3]
        split_ifs <;> omega
      | cons v vs =>
        have hlen : us.length + vs.length + 2 ≤ n + 1 := by
          simpa [Nat.add_assoc, Nat.add_comm, Nat.add_left_comm] using h
        have ih1 := ih us vs (by omega)
        have ih2 := ih (u :: us) vs (by simp only [List.length_cons]; omega)
        have ih3 := ih us (v :: vs) (by simp only [List.length_cons]; omega)
        simp only [List.cons_append] at ih2 ih3 ⊢
        simp only [editDistance_cons_cons]
        rw [ih1, ih2, ih3]
        split_ifs <;> first | rfl | exact min_transpose _ _ _ _ _ _ _ _ _

theorem editDistance_self : ∀ xs : List Char, editDistance xs xs = 0
  | [] => by simp [editDistance_nil_left]
  | x :: xs => by
      rw [editDistance_cons_cons, if_pos rfl]
      exact editDistance_self xs

/-- The edit distance is symmetric. -/
theorem editDistance_comm (xs ys : List Char) :
    editDistance xs ys = editDistance ys xs := by
  suffices H : ∀ n (xs ys : List Char), xs.length + ys.length ≤ n →
      editDistance xs ys = editDistance ys xs from
    H (xs.length + ys.length) xs ys le_rfl
  intro n
  induction n with
  | zero =>
    intro xs ys h
    have hx : xs = [] := by cases xs <;> simp_all
    have hy : ys = [] := by cases ys <;> simp_all
    subst hx; subst hy; rfl
  | succ n ih =>
    intro xs ys h
    cases xs with
    | nil => rw [editDistance_nil_left, editDistance_nil_right]
    | cons u us =>
      cases ys with
      | nil => rw [editDistance_nil_left, editDistance_nil_right]
      | cons v vs =>
        have hlen : us.length + vs.length + 2 ≤ n + 1 := by
          simpa [Nat.add_assoc, Nat.add_comm, Nat.add_left_comm] using h
        have ih1 := ih us vs (by omega)
        have ih2 := ih (u :: us) vs (by simp only [List.length_cons]; omega)
        have ih3 := ih us (v :: vs) (by simp only [List.length_cons]; omega)
        rw [editDistance_cons_cons, editDistance_cons_cons]
        by_cases huv : u = v
        · rw [if_pos huv, if_pos huv.symm, ih1]
        · rw [if_neg huv, if_neg (fun hh => huv hh.symm), ih1, ih2, ih3]
          omega

/-- The edit distance never exceeds the length of the longer string. -/
theorem editDistance_le_max (xs ys : List Char) :
    editDistance xs ys ≤ max xs.length ys.length := by
  suffices H : ∀ n (xs ys : List Char), xs.length + ys.length ≤ n →
      editDistance xs ys ≤ max xs.length ys.length from
    H (xs.length + ys.length) xs ys le_rfl
  intro n
  induction n with
  | zero =>
    intro xs ys h
    have hx : xs = [] := by cases xs <;> simp_all
    have hy : ys = [] := by cases ys <;> simp_all
    subst hx; subst hy; simp [editDistance_nil_left]
  | succ n ih =>
    intro xs ys h
    cases xs with
    | nil => simp [editDistance_nil_left]
    | cons u us =>
      cases ys with
      | nil => simp [editDistance_nil_right]
      | cons v vs =>
        have hlen : us.length + vs.length + 2 ≤ n + 1 := by
          simpa [Nat.add_assoc, Nat.add_comm, Nat.add_left_comm] using h
        have ih1 := ih us vs (by omega)
        rw [editDistance_cons_cons]
        by_cases huv : u = v <;>
          simp only [huv, if_true, if_false, ite_true, ite_false, List.length_cons] <;>
          omega

-- ------------------------------------------------------------------
-- The matrix fill computes the edit distance
-- ------------------------------------------------------------------

theorem segRow_headD (p pre l : List Char) :
    (segRow p pre l).headD 0 = editDistance pre p := by
  cases l <;> rfl

theorem segRow_shape (p pre l : List Char) :
    segRow p pre l = editDistance pre p :: (segRow p pre l).tail := by
  cases l <;> rfl

theorem rowStep_segRow (bc : Char) (p suf : List Char) :
    ∀ pre : List Char,
      rowStep bc suf (editDistance pre (p ++ [bc])) (segRow p pre suf) =
        (segRow (p ++ [bc]) pre suf).tail := by
  induction suf with
  | nil => intro pre; rfl
  | cons c cs ih =>
    intro pre
    simp only [segRow, rowStep, List.tail_cons, segRow_headD]
    have hcur : (if bc = c then editDistance pre p
        else min (editDistance pre p + 1)
          (min (editDistance pre (p ++ [bc]) + 1) (editDistance (pre ++ [c]) p + 1))) =
        editDistance (pre ++ [c]) (p ++ [bc]) := by
      rw [editDistance_concat]
      by_cases h : c = bc
      · rw [if_pos h, if_pos h.symm]
      · rw [if_neg h, if_neg (fun hh => h hh.symm)]
        omega
    rw [hcur, ih (pre ++ [c])]
    exact (segRow_shape (p ++ [bc]) (pre ++ [c]) cs).symm

theorem nextRow_segRow (bc : Char) (p a : List Char) :
    nextRow bc a (segRow p [] a) = segRow (p ++ [bc]) [] a := by
  have hnil : editDistance [] p + 1 = editDistance [] (p ++ [bc]) := by
    simp [editDistance_nil_left]
  cases a with
  | nil =>
    simp only [segRow, nextRow, rowStep]
    rw [hnil]
  | cons c cs =>
    simp only [segRow, nextRow]
    rw [hnil]
    have := rowStep_segRow bc p (c :: cs) []
    simp only [segRow] at this
    rw [this]
    exact (segRow_shape (p ++ [bc]) [] (c :: cs)).symm

theorem foldl_nextRow (a : List Char) :
    ∀ (bs p : List Char),
      bs.foldl (fun row bc => nextRow bc a row) (segRow p [] a) = segRow (p ++ bs) [] a := by
  intro bs
  induction bs with
  | nil => intro p; simp
  | cons bc bs ih =>
    intro p
    simp only [List.foldl_cons]
    rw [nextRow_segRow, ih (p ++ [bc])]
    simp

theorem segRow_nil_map_range :
    ∀ (l pre : List Char),
      segRow [] pre l = (List.range (l.length + 1)).map (fun j => pre.length + j) := by
  intro l
  induction l with
  | nil =>
    intro pre
    simp [segRow, editDistance_nil_right, List.range_succ_eq_map]
  | cons c cs ih =>
    intro pre
    simp only [segRow, editDistance_nil_right, ih (pre ++ [c]), List.length_append,
      List.length_cons, List.length_nil]
    rw [List.range_succ_eq_map (cs.length + 1)]
    simp only [List.map_cons, List.map_map]
    congr 1
    congr 1
    funext j
    simp only [Function.comp]
    omega

theorem segRow_getD (p : List Char) :
    ∀ (l pre : List Char),
      (segRow p pre l).getD l.length 0 = editDistance (pre ++ l) p := by
  intro l
  induction l with
  | nil => intro pre; simp [segRow]
  | cons c cs ih =>
    intro pre
    simp only [segRow, List.length_cons, List.getD_cons_succ, ih (pre ++ [c])]
    congr 1
    simp

/-- The JS dynamic-programming implementation computes the textbook
character-level Levenshtein edit distance. -/
theorem levenshtein_eq_editDistance (a b : String) :
    levenshtein a b = editDistance a.data b.data := by
  unfold levenshtein
  have h0 : List.range (a.data.length + 1) = segRow [] [] a.data := by
    rw [segRow_nil_map_range a.data []]
    simp
  rw [h0, foldl_nextRow a.data b.data [], List.nil_append, segRow_getD b.data a.data []]
  rw [List.nil_append]

-- ------------------------------------------------------------------
-- Facts about `calculateSimilarity`
-- ------------------------------------------------------------------

theorem string_eq_empty_iff (s : String) : s = "" ↔ s.data = [] := by
  constructor
  · intro h; rw [h]
  · intro h
    apply String.ext
    rw [h]

theorem string_length_data (s : String) : s.length = s.data.length := rfl

/-- `calculateSimilarity` in terms of the reference edit distance. -/
theorem calculateSimilarity_eq (a b : String) :
    calculateSimilarity a b =
      if max a.length b.length = 0 then 100
      else ((max a.length b.length : ℚ) - (editDistance a.data b.data : ℚ))
        / (max a.length b.length : ℚ) * 100 := by
  simp only [calculateSimilarity, levenshtein_eq_editDistance, Nat.cast_max]

theorem levenshtein_self (s : String) : levenshtein s s = 0 := by
  rw [levenshtein_eq_editDistance, editDistance_self]

theorem levenshtein_comm (a b : String) : levenshtein a b = levenshtein b a := by
  rw [levenshtein_eq_editDistance, levenshtein_eq_editDistance, editDistance_comm]

theorem levenshtein_le_max (a b : String) :
    levenshtein a b ≤ max a.length b.length := by
  rw [levenshtein_eq_editDistance]
  exact editDistance_le_max a.data b.data

theorem calculateSimilarity_self (s : String) : calculateSimilarity s s = 100 := by
  simp only [calculateSimilarity, levenshtein_self, Nat.max_self, Nat.cast_zero, sub_zero]
  by_cases h : s.length = 0
  · rw [if_pos h]
  · rw [if_neg h]
    rw [div_self (by exact_mod_cast h), one_mul]

theorem calculateSimilarity_comm (a b : String) :
    calculateSimilarity a b = calculateSimilarity b a := by
  simp only [calculateSimilarity, levenshtein_comm a b, Nat.max_comm a.length b.length]

theorem calculateSimilarity_nonneg (a b : String) : 0 ≤ calculateSimilarity a b := by
  rw [calculateSimilarity_eq]
  by_cases h : max a.length b.length = 0
  · rw [if_pos h]; norm_num
  · rw [if_neg h]
    have hlev : (editDistance a.data b.data : ℚ) ≤ (max a.length b.length : ℚ) := by
      have := editDistance_le_max a.data b.data
      exact_mod_cast this
    have hpos : (0 : ℚ) < (max a.length b.length : ℚ) := by
      exact_mod_cast Nat.pos_of_ne_zero h
    have h1 : (0 : ℚ) ≤ ((max a.length b.length : ℚ) - (editDistance a.data b.data : ℚ))
        / (max a.length b.length : ℚ) := div_nonneg (by linarith) (le_of_lt hpos)
    linarith

theorem calculateSimilarity_le_100 (a b : String) : calculateSimilarity a b ≤ 100 := by
  rw [calculateSimilarity_eq]
  by_cases h : max a.length b.length = 0
  · rw [if_pos h]
  · rw [if_neg h]
    have hd : (0 : ℚ) ≤ (editDistance a.data b.data : ℚ) := by positivity
    have hpos : (0 : ℚ) < (max a.length b.length : ℚ) := by
      exact_mod_cast Nat.pos_of_ne_zero h
    have h1 : ((max a.length b.length : ℚ) - (editDistance a.data b.data : ℚ))
        / (max a.length b.length : ℚ) ≤ 1 := by
      rw [div_le_one hpos]; linarith
    calc ((max a.length b.length : ℚ) - (editDistance a.data b.data : ℚ))
          / (max a.length b.length : ℚ) * 100 ≤ 1 * 100 :=
            mul_le_mul_of_nonneg_right h1 (by norm_num)
      _ = 100 := one_mul 100

theorem levenshtein_empty_left (t : String) : levenshtein "" t = t.length := by
  rw [levenshtein_eq_editDistance]
  exact editDistance_nil_left t.data

theorem levenshtein_empty_right (t : String) : levenshtein t "" = t.length := by
  rw [levenshtein_eq_editDistance]
  exact editDistance_nil_right t.data

-- ------------------------------------------------------------------
-- Facts about `handleCheck` and the feedback generator
-- ------------------------------------------------------------------

theorem jsFalsy_some_ne (t : String) (ht : t ≠ "") : jsFalsy (some t) = false := by
  simp [jsFalsy, ht]

/-- Unfolding of the Pronunciation branch of `handleCheck` for a present,
non-empty transcript, with the verdict in the source's own operand order. -/
theorem handleCheck_pronunciation (q : Question) (hq : q.type = QuestionType.Pronunciation)
    (so : Option String) (t : String) (ht : t ≠ "") (idx : List Nat) (sens : Sensitivity) :
    handleCheck ⟨q, so, some t, idx, sens⟩ =
      some ⟨(decide (normalize t = normalize q.correctAnswer) ||
          (decide (sens = Sensitivity.Easy) &&
            (includes (normalize t) (normalize q.correctAnswer) ||
             includes (normalize q.correctAnswer) (normalize t)))) ||
        decide (calculateSimilarity (normalize q.correctAnswer) (normalize t) ≥ threshold sens),
        some (getPronunciationFeedback q.correctAnswer (some t))⟩ := by
  simp only [handleCheck, hq, jsFalsy_some_ne t ht, Bool.false_and, Option.getD_some]
  rw [if_neg (by simp : ¬ (false = true))]

theorem getPronunciationFeedback_perfect (target t : String) (ht : t ≠ "")
    (heq : normalize t = normalize target) :
    getPronunciationFeedback target (some t) = perfectMsg := by
  simp only [getPronunciationFeedback, jsFalsy_some_ne t ht, Option.getD_some]
  rw [if_neg (by simp : ¬ (false = true)), if_pos heq.symm]

/-- Unfolding of the feedback cascade for a present, non-empty, non-matching
transcript: the first missing target word is named only when it is non-empty
(the JS truthiness test), otherwise the cascade falls through to the length
and word-by-word rules. -/
theorem getPronunciationFeedback_cascade (target t : String) (ht : t ≠ "")
    (hne : normalize t ≠ normalize target) :
    getPronunciationFeedback target (some t) =
      (match (splitWs (normalize target)).find?
          (fun w => !(splitWs (normalize t)).contains w) with
       | some missing =>
           if missing = "" then
             lengthAndWordFeedback (splitWs (normalize target)) (splitWs (normalize t))
           else notClearMsg missing
       | none =>
           lengthAndWordFeedback (splitWs (normalize target)) (splitWs (normalize t))) := by
  have hne2 : ¬ (normalize target = normalize t) := fun hh => hne (Eq.symm hh)
  simp only [getPronunciationFeedback, jsFalsy_some_ne t ht, Option.getD_some,
    levenshtein_eq_editDistance, lengthAndWordFeedback]
  rw [if_neg (by simp : ¬ (false = true)), if_neg hne2]
  cases hfind : (splitWs (normalize target)).find?
      (fun w => !(splitWs (normalize t)).contains w) with
  | none => simp [jsFalsy]
  | some w =>
      by_cases hw : w = ""
      · simp [jsFalsy, hw]
      · simp [jsFalsy, hw]

theorem includes_empty_needle (s : String) : includes s "" = true := by
  obtain ⟨d⟩ := s
  cases d <;> rfl

theorem string_length_ne_zero (s : String) (h : s ≠ "") : s.length ≠ 0 := by
  intro hh
  exact h ((string_eq_empty_iff s).mpr (List.length_eq_zero.mp hh))

theorem calculateSimilarity_empty_right (s : String) (h : s ≠ "") :
    calculateSimilarity s "" = 0 := by
  have hlen0 : ("" : String).length = 0 := rfl
  have hcond : ¬ (max s.length ("" : String).length = 0) := by
    rw [hlen0, Nat.max_zero]
    exact string_length_ne_zero s h
  rw [calculateSimilarity_eq, if_neg hcond]
  rw [show ("" : String).data = [] from rfl, editDistance_nil_right s.data,
    ← string_length_data, hlen0, Nat.cast_zero]
  rw [max_eq_left (by positivity : (0 : ℚ) ≤ (s.length : ℚ))]
  rw [sub_self, zero_div, zero_mul]

-- ------------------------------------------------------------------
-- Claims
-- ------------------------------------------------------------------

/-- C1: `calculateSimilarity` returns 100 when both strings are empty, and
otherwise `((L - d) / L) * 100` where `d` is the character-level Levenshtein
edit distance and `L` the maximum of the two lengths; on "kitten"/"sitting"
it returns 400/7, and the result always lies in [0, 100]. -/
theorem claim_C1_similarity (a b : String) :
    calculateSimilarity a b =
      (if a = "" ∧ b = "" then (100 : ℚ)
       else ((max a.length b.length : ℚ) - (editDistance a.data b.data : ℚ))
         / (max a.length b.length : ℚ) * 100)
    ∧ calculateSimilarity "kitten" "sitting" = 400 / 7
    ∧ 0 ≤ calculateSimilarity a b ∧ calculateSimilarity a b ≤ 100 := by
  refine ⟨?_, by with_unfolding_all decide,
    calculateSimilarity_nonneg a b, calculateSimilarity_le_100 a b⟩
  rw [calculateSimilarity_eq]
  refine if_congr ?_ rfl rfl
  rw [Nat.max_eq_zero_iff, string_eq_empty_iff a, string_eq_empty_iff b,
    string_length_data, string_length_data, List.length_eq_zero, List.length_eq_zero]

/-- C8: similarity is 100 on identical strings (including the empty string),
symmetric in its arguments, and 0 against the empty string, where the
distance reduces to the other string's length. -/
theorem claim_C8_similarity_algebra (a b s : String) :
    calculateSimilarity s s = 100
    ∧ calculateSimilarity a b = calculateSimilarity b a
    ∧ calculateSimilarity "" "abc" = 0
    ∧ calculateSimilarity "abc" "" = 0
    ∧ levenshtein "" a = a.length ∧ levenshtein a "" = a.length :=
  ⟨calculateSimilarity_self s, calculateSimilarity_comm a b,
    by with_unfolding_all decide, by with_unfolding_all decide,
    levenshtein_empty_left a, levenshtein_empty_right a⟩

/-- C2: for a Pronunciation attempt with a non-empty transcript the pass
threshold depends only on the sensitivity (Easy 50, Medium 80, Hard 95), and
the verdict is correct iff the similarity score meets the threshold, or the
normalized strings are equal, or — under Easy only — one normalized string is
a substring of the other; the substring alternative passes independently of
the threshold, and under Medium/Hard it is absent. -/
theorem claim_C2_pronunciation_verdict (q : Question)
    (hq : q.type = QuestionType.Pronunciation) (so : Option String) (t : String)
    (ht : t ≠ "") (idx : List Nat) :
    (threshold Sensitivity.Easy = 50 ∧ threshold Sensitivity.Medium = 80 ∧
      threshold Sensitivity.Hard = 95)
    ∧ (∀ sens, handleCheck ⟨q, so, some t, idx, sens⟩ =
        some ⟨decide (calculateSimilarity (normalize q.correctAnswer) (normalize t) ≥
              threshold sens) ||
            decide (normalize t = normalize q.correctAnswer) ||
            (decide (sens = Sensitivity.Easy) &&
              (includes (normalize t) (normalize q.correctAnswer) ||
               includes (normalize q.correctAnswer) (normalize t))),
          some (getPronunciationFeedback q.correctAnswer (some t))⟩)
    ∧ (∀ sens, sens ≠ Sensitivity.Easy →
        handleCheck ⟨q, so, some t, idx, sens⟩ =
          some ⟨decide (calculateSimilarity (normalize q.correctAnswer) (normalize t) ≥
              threshold sens) ||
            decide (normalize t = normalize q.correctAnswer),
            some (getPronunciationFeedback q.correctAnswer (some t))⟩)
    ∧ ((includes (normalize t) (normalize q.correctAnswer) ||
        includes (normalize q.correctAnswer) (normalize t)) = true →
        (handleCheck ⟨q, so, some t, idx, Sensitivity.Easy⟩).map CheckResult.isCorrect =
          some true) := by
  have h2 : ∀ sens, handleCheck ⟨q, so, some t, idx, sens⟩ =
      some ⟨decide (calculateSimilarity (normalize q.correctAnswer) (normalize t) ≥
            threshold sens) ||
          decide (normalize t = normalize q.correctAnswer) ||
          (decide (sens = Sensitivity.Easy) &&
            (includes (normalize t) (normalize q.correctAnswer) ||
             includes (normalize q.correctAnswer) (normalize t))),
        some (getPronunciationFeedback q.correctAnswer (some t))⟩ := by
    intro sens
    rw [handleCheck_pronunciation q hq so t ht idx sens]
    refine congrArg some (congrArg₂ CheckResult.mk ?_ rfl)
    generalize decide (normalize t = normalize q.correctAnswer) = A
    generalize (decide (sens = Sensitivity.Easy) &&
      (includes (normalize t) (normalize q.correctAnswer) ||
       includes (normalize q.correctAnswer) (normalize t))) = X
    generalize decide (calculateSimilarity (normalize q.correctAnswer) (normalize t) ≥
      threshold sens) = C
    cases A <;> cases X <;> cases C <;> rfl
  refine ⟨⟨rfl, rfl, rfl⟩, h2, ?_, ?_⟩
  · intro sens hs
    rw [h2 sens]
    have hE : decide (sens = Sensitivity.Easy) = false := decide_eq_false hs
    rw [hE, Bool.false_and, Bool.or_false]
  · intro hsub
    rw [h2 Sensitivity.Easy]
    have hE : decide (Sensitivity.Easy = Sensitivity.Easy) = true := by decide
    simp [hsub, hE]

/-- C2 witness: target "good morning", transcript "good morning everyone"
under Easy sensitivity is judged correct (with the generic feedback). -/
theorem claim_C2_witness :
    handleCheck ⟨⟨QuestionType.Pronunciation, "good morning", [], ""⟩, none,
      some "good morning everyone", [], Sensitivity.Easy⟩ =
    some ⟨true, some moreClearlyMsg⟩ := by
  have h := (claim_C2_pronunciation_verdict ⟨QuestionType.Pronunciation, "good morning", [], ""⟩
    rfl none "good morning everyone" (by decide) []).2.1 Sensitivity.Easy
  rw [h]
  have hfb : getPronunciationFeedback "good morning" (some "good morning everyone") =
      moreClearlyMsg := by decide
  have hsub : (includes (normalize "good morning everyone") (normalize "good morning") ||
      includes (normalize "good morning") (normalize "good morning everyone")) = true := by decide
  have hE : decide (Sensitivity.Easy = Sensitivity.Easy) = true := by decide
  rw [hfb]
  simp [hsub, hE]

/-- C3 counterexample: a Pronunciation attempt whose transcript is the empty
string (and with no selected option) produces NO verdict at all — `handleCheck`
returns early, contradicting the claim that it yields a defined incorrect
verdict with the nothing-heard feedback. -/
theorem claim_C3_counterexample :
    handleCheck ⟨⟨QuestionType.Pronunciation, "good morning", [], ""⟩, none, some "", [],
      Sensitivity.Medium⟩ = none := by decide

/-- C3 (amended): for every Pronunciation attempt whose transcript is empty or
absent — and whose selected option is also empty or absent, as it is whenever
the transcript is, since the handler sets both from the same recognition
result — evaluation short-circuits producing no verdict at all: no similarity
is computed, no feedback is set, and the status stays idle, regardless of the
sensitivity setting. -/
theorem claim_C3_empty_transcript (q : Question) (hq : q.type = QuestionType.Pronunciation)
    (so sp : Option String) (hsp : jsFalsy sp = true) (hso : jsFalsy so = true)
    (idx : List Nat) (sens : Sensitivity) :
    handleCheck ⟨q, so, sp, idx, sens⟩ = none := by
  simp [handleCheck, hq, hsp, hso]

/-- C3 witness: absent transcript and empty selected option under Hard
sensitivity produce no verdict. -/
theorem claim_C3_witness :
    handleCheck ⟨⟨QuestionType.Pronunciation, "hello", [], ""⟩, some "", none, [],
      Sensitivity.Hard⟩ = none :=
  claim_C3_empty_transcript ⟨QuestionType.Pronunciation, "hello", [], ""⟩ rfl
    (some "") none (by decide) (by decide) [] Sensitivity.Hard

/-- C4: both strings are normalized by lowercasing, stripping the punctuation
set and trimming; whenever the normalized transcript equals the normalized
target the verdict is correct with the perfect-pronunciation message, and the
similarity score of the normalized pair is 100 (e.g. "I am happy!" normalizes
to "i am happy"). -/
theorem claim_C4_exact_match (q : Question) (hq : q.type = QuestionType.Pronunciation)
    (so : Option String) (t : String) (ht : t ≠ "") (idx : List Nat) (sens : Sensitivity)
    (heq : normalize t = normalize q.correctAnswer) :
    handleCheck ⟨q, so, some t, idx, sens⟩ = some ⟨true, some perfectMsg⟩
    ∧ calculateSimilarity (normalize q.correctAnswer) (normalize t) = 100
    ∧ normalize "I am happy!" = "i am happy" := by
  refine ⟨?_, ?_, by decide⟩
  · rw [handleCheck_pronunciation q hq so t ht idx sens,
      getPronunciationFeedback_perfect q.correctAnswer t ht heq]
    have hA : decide (normalize t = normalize q.correctAnswer) = true := decide_eq_true heq
    rw [hA, Bool.true_or, Bool.true_or]
  · rw [heq, calculateSimilarity_self]

/-- C4 witness: target "I am happy" with transcript "I am happy!" is a perfect
match after normalization. -/
theorem claim_C4_witness :
    handleCheck ⟨⟨QuestionType.Pronunciation, "I am happy", [], ""⟩, none,
      some "I am happy!", [], Sensitivity.Medium⟩ = some ⟨true, some perfectMsg⟩
    ∧ calculateSimilarity (normalize "I am happy") (normalize "I am happy!") = 100 := by
  have h := claim_C4_exact_match ⟨QuestionType.Pronunciation, "I am happy", [], ""⟩ rfl none
    "I am happy!" (by decide) [] Sensitivity.Medium (by decide)
  exact ⟨h.1, h.2.1⟩

/-- C5 counterexample: for target "!!!" — whose normalization is empty, so its
split word list is [""] — and transcript "hello", the first target word ""
is absent from the transcript's word set, so the claimed rule (1) would name
it as the missing word; the program's `if (missing)` truthiness test skips
the falsy empty string and instead returns the you-said-instead message from
the word-by-word rule. -/
theorem claim_C5_counterexample :
    getPronunciationFeedback "!!!" (some "hello") = insteadMsg "" "hello"
    ∧ getPronunciationFeedback "!!!" (some "hello") ≠ notClearMsg ""
    ∧ (splitWs (normalize "!!!")).find?
        (fun w => !(splitWs (normalize "hello")).contains w) = some "" := by
  refine ⟨by decide, by decide, by decide⟩

/-- C5 (amended): for a non-empty, non-exactly-matching transcript the stored
feedback — computed regardless of the pass/fail verdict and of the
sensitivity — is chosen by the fixed cascade: the first missing target word
(in target order) when that word is non-empty (the JS truthiness test skips
an empty found word, which occurs exactly when the whole normalized target is
empty), else length mismatch beyond 2, else at the first differing position a
slightly-off message when the two words are within edit distance 2 and a
you-said-instead message otherwise, else the generic message. -/
theorem claim_C5_feedback_cascade (q : Question) (hq : q.type = QuestionType.Pronunciation)
    (so : Option String) (t : String) (ht : t ≠ "")
    (hne : normalize t ≠ normalize q.correctAnswer) (idx : List Nat) :
    (∀ sens, (handleCheck ⟨q, so, some t, idx, sens⟩).map CheckResult.feedback =
      some (some (getPronunciationFeedback q.correctAnswer (some t))))
    ∧ getPronunciationFeedback q.correctAnswer (some t) =
        (match (splitWs (normalize q.correctAnswer)).find?
            (fun w => !(splitWs (normalize t)).contains w) with
         | some missing =>
             if missing = "" then
               lengthAndWordFeedback (splitWs (normalize q.correctAnswer))
                 (splitWs (normalize t))
             else notClearMsg missing
         | none =>
             lengthAndWordFeedback (splitWs (normalize q.correctAnswer))
               (splitWs (normalize t))) := by
  refine ⟨?_, getPronunciationFeedback_cascade q.correctAnswer t ht
    (fun hh => hne (hh.trans rfl))⟩
  intro sens
  rw [handleCheck_pronunciation q hq so t ht idx sens]
  rfl

/-- C5 witness: target "I am very happy today" vs transcript "I am happy
today" names "very" as the missing word. -/
theorem claim_C5_witness :
    getPronunciationFeedback "I am very happy today" (some "I am happy today") =
      notClearMsg "very" := by
  have h := (claim_C5_feedback_cascade ⟨QuestionType.Pronunciation, "I am very happy today",
    [], ""⟩ rfl none "I am happy today" (by decide) (by decide) []).2
  exact h.trans (by decide)

/-- C6: for a WordBuilder attempt the submitted word is the concatenation, in
tile order, of the option strings at the submitted indices, and the verdict is
correct iff that concatenation equals `correctAnswer` exactly
(case-sensitively). -/
theorem claim_C6_word_builder (q : Question) (hq : q.type = QuestionType.WordBuilder)
    (so sp : Option String) (idx : List Nat) (sens : Sensitivity) :
    handleCheck ⟨q, so, sp, idx, sens⟩ =
      some ⟨decide (String.join (idx.map (fun i => q.options.getD i "")) = q.correctAnswer),
        none⟩
    ∧ (decide (String.join (idx.map (fun i => q.options.getD i "")) = q.correctAnswer) = true ↔
        String.join (idx.map (fun i => q.options.getD i "")) = q.correctAnswer) := by
  refine ⟨?_, ⟨of_decide_eq_true, decide_eq_true⟩⟩
  simp [handleCheck, hq]

/-- C6 witness: choices H E L P F U L with answer "HELPFUL": indices 0..6
build the word correctly, 3,0,1,2,4,5,6 ("PHELFUL") do not. -/
theorem claim_C6_witness :
    handleCheck ⟨⟨QuestionType.WordBuilder, "HELPFUL", ["H","E","L","P","F","U","L"], ""⟩,
      none, none, [0,1,2,3,4,5,6], Sensitivity.Medium⟩ = some ⟨true, none⟩
    ∧ handleCheck ⟨⟨QuestionType.WordBuilder, "HELPFUL", ["H","E","L","P","F","U","L"], ""⟩,
      none, none, [3,0,1,2,4,5,6], Sensitivity.Medium⟩ = some ⟨false, none⟩ := by
  constructor
  · exact (claim_C6_word_builder ⟨QuestionType.WordBuilder, "HELPFUL",
      ["H","E","L","P","F","U","L"], ""⟩ rfl none none [0,1,2,3,4,5,6]
      Sensitivity.Medium).1.trans (by decide)
  · exact (claim_C6_word_builder ⟨QuestionType.WordBuilder, "HELPFUL",
      ["H","E","L","P","F","U","L"], ""⟩ rfl none none [3,0,1,2,4,5,6]
      Sensitivity.Medium).1.trans (by decide)

/-- C7: for the three choice kinds the verdict is correct iff the selected
choice equals `correctAnswer` under exact (ordinal) string equality, so any
case or whitespace difference fails; the feedback the footer displays is the
question's explanation regardless of correctness. -/
theorem claim_C7_choice_equality (q : Question)
    (hq : q.type = QuestionType.TranslateToEnglish ∨ q.type = QuestionType.TranslateToBengali ∨
      q.type = QuestionType.FillBlank)
    (s : String) (hs : s ≠ "") (sp : Option String) (idx : List Nat) (sens : Sensitivity) :
    handleCheck ⟨q, some s, sp, idx, sens⟩ = some ⟨decide (s = q.correctAnswer), none⟩
    ∧ (decide (s = q.correctAnswer) = true ↔ s = q.correctAnswer)
    ∧ (∀ fb, displayedFeedback q fb = some q.explanation) := by
  refine ⟨?_, ⟨of_decide_eq_true, decide_eq_true⟩, ?_⟩
  · rcases hq with h | h | h <;> simp [handleCheck, h, hs]
  · intro fb
    rcases hq with h | h | h <;> simp [displayedFeedback, h]

/-- C7 witness: case and whitespace differences fail, exact equality passes,
and the displayed feedback is the explanation. -/
theorem claim_C7_witness :
    handleCheck ⟨⟨QuestionType.FillBlank, "Hello", [], "why"⟩, some "hello", none, [],
      Sensitivity.Medium⟩ = some ⟨false, none⟩
    ∧ handleCheck ⟨⟨QuestionType.TranslateToEnglish, "Hello", [], "why"⟩, some " Hello", none,
      [], Sensitivity.Medium⟩ = some ⟨false, none⟩
    ∧ handleCheck ⟨⟨QuestionType.TranslateToBengali, "Hello", [], "why"⟩, some "Hello", none,
      [], Sensitivity.Medium⟩ = some ⟨true, none⟩
    ∧ displayedFeedback ⟨QuestionType.FillBlank, "Hello", [], "why"⟩ none = some "why" := by
  refine ⟨?_, ?_, ?_, ?_⟩
  · exact (claim_C7_choice_equality ⟨QuestionType.FillBlank, "Hello", [], "why"⟩
      (Or.inr (Or.inr rfl)) "hello" (by decide) none [] Sensitivity.Medium).1.trans (by decide)
  · exact (claim_C7_choice_equality ⟨QuestionType.TranslateToEnglish, "Hello", [], "why"⟩
      (Or.inl rfl) " Hello" (by decide) none [] Sensitivity.Medium).1.trans (by decide)
  · exact (claim_C7_choice_equality ⟨QuestionType.TranslateToBengali, "Hello", [], "why"⟩
      (Or.inr (Or.inl rfl)) "Hello" (by decide) none [] Sensitivity.Medium).1.trans (by decide)
  · exact (claim_C7_choice_equality ⟨QuestionType.FillBlank, "Hello", [], "why"⟩
      (Or.inr (Or.inr rfl)) "x" (by decide) none [] Sensitivity.Medium).2.2 none

/-- C9: a transcript that is non-empty as raw text but normalizes to the empty
string (only stripped punctuation and whitespace) is accepted under Easy for
every target whose normalization is non-empty — the empty string is a
substring of every string — while under Medium and Hard it is rejected. -/
theorem claim_C9_empty_normalization (q : Question)
    (hq : q.type = QuestionType.Pronunciation) (so : Option String) (t : String)
    (ht : t ≠ "") (hnt : normalize t = "") (htar : normalize q.correctAnswer ≠ "")
    (idx : List Nat) :
    (handleCheck ⟨q, so, some t, idx, Sensitivity.Easy⟩).map CheckResult.isCorrect = some true
    ∧ (handleCheck ⟨q, so, some t, idx, Sensitivity.Medium⟩).map CheckResult.isCorrect =
        some false
    ∧ (handleCheck ⟨q, so, some t, idx, Sensitivity.Hard⟩).map CheckResult.isCorrect =
        some false := by
  have hincl : includes (normalize q.correctAnswer) (normalize t) = true := by
    rw [hnt]
    exact includes_empty_needle _
  have hA : decide (normalize t = normalize q.correctAnswer) = false := by
    apply decide_eq_false
    intro hh
    exact htar (hh.symm.trans hnt)
  have hsim : calculateSimilarity (normalize q.correctAnswer) (normalize t) = 0 := by
    rw [hnt]
    exact calculateSimilarity_empty_right _ htar
  refine ⟨?_, ?_, ?_⟩
  · rw [handleCheck_pronunciation q hq so t ht idx Sensitivity.Easy]
    have hE : decide (Sensitivity.Easy = Sensitivity.Easy) = true := by decide
    simp [hincl, hE]
  · rw [handleCheck_pronunciation q hq so t ht idx Sensitivity.Medium]
    have hC : decide (calculateSimilarity (normalize q.correctAnswer) (normalize t) ≥
        threshold Sensitivity.Medium) = false := by
      rw [hsim]
      decide
    have hE : decide (Sensitivity.Medium = Sensitivity.Easy) = false := by decide
    simp [hA, hC, hE]
  · rw [handleCheck_pronunciation q hq so t ht idx Sensitivity.Hard]
    have hC : decide (calculateSimilarity (normalize q.correctAnswer) (normalize t) ≥
        threshold Sensitivity.Hard) = false := by
      rw [hsim]
      decide
    have hE : decide (Sensitivity.Hard = Sensitivity.Easy) = false := by decide
    simp [hA, hC, hE]

/-- C9 witness: transcript "!!!" (which normalizes to the empty string) against
target "good morning": accepted under Easy, rejected under Medium and Hard. -/
theorem claim_C9_witness :
    (handleCheck ⟨⟨QuestionType.Pronunciation, "good morning", [], ""⟩, none, some "!!!", [],
      Sensitivity.Easy⟩).map CheckResult.isCorrect = some true
    ∧ (handleCheck ⟨⟨QuestionType.Pronunciation, "good morning", [], ""⟩, none, some "!!!", [],
      Sensitivity.Medium⟩).map CheckResult.isCorrect = some false
    ∧ (handleCheck ⟨⟨QuestionType.Pronunciation, "good morning", [], ""⟩, none, some "!!!", [],
      Sensitivity.Hard⟩).map CheckResult.isCorrect = some false :=
  claim_C9_empty_normalization ⟨QuestionType.Pronunciation, "good morning", [], ""⟩ rfl none
    "!!!" (by decide) (by decide) (by decide) []

/-- C10: evaluation is deterministic and pure — two `handleCheck` runs whose
question, selected option, transcript, tile indices and sensitivity agree
produce the same verdict and the same displayed feedback. -/
theorem claim_C10_deterministic (i1 i2 : CheckInput)
    (hq : i1.question = i2.question) (hso : i1.selectedOption = i2.selectedOption)
    (hsp : i1.spokenText = i2.spokenText) (hidx : i1.builtWordIndices = i2.builtWordIndices)
    (hsens : i1.sensitivity = i2.sensitivity) :
    handleCheck i1 = handleCheck i2
    ∧ (handleCheck i1).map (fun r => displayedFeedback i1.question r.feedback) =
      (handleCheck i2).map (fun r => displayedFeedback i2.question r.feedback) := by
  obtain ⟨q1, so1, sp1, x1, se1⟩ := i1
  obtain ⟨q2, so2, sp2, x2, se2⟩ := i2
  cases hq
  cases hso
  cases hsp
  cases hidx
  cases hsens
  exact ⟨rfl, rfl⟩

/-- C10 witness: two identical WordBuilder inputs evaluate identically. -/
theorem claim_C10_witness :
    handleCheck ⟨⟨QuestionType.WordBuilder, "HI", ["H","I"], ""⟩, none, none, [0,1],
        Sensitivity.Medium⟩ =
      handleCheck ⟨⟨QuestionType.WordBuilder, "HI", ["H","I"], ""⟩, none, none, [0,1],
        Sensitivity.Medium⟩
    ∧ (handleCheck ⟨⟨QuestionType.WordBuilder, "HI", ["H","I"], ""⟩, none, none, [0,1],
        Sensitivity.Medium⟩).map (fun r => displayedFeedback
          ⟨QuestionType.WordBuilder, "HI", ["H","I"], ""⟩ r.feedback) =
      (handleCheck ⟨⟨QuestionType.WordBuilder, "HI", ["H","I"], ""⟩, none, none, [0,1],
        Sensitivity.Medium⟩).map (fun r => displayedFeedback
          ⟨QuestionType.WordBuilder, "HI", ["H","I"], ""⟩ r.feedback) :=
  claim_C10_deterministic
    ⟨⟨QuestionType.WordBuilder, "HI", ["H","I"], ""⟩, none, none, [0,1], Sensitivity.Medium⟩
    ⟨⟨QuestionType.WordBuilder, "HI", ["H","I"], ""⟩, none, none, [0,1], Sensitivity.Medium⟩
    rfl rfl rfl rfl rfl

end LessonRunner
